import Mathlib

/-!
Verification of the iothub service client (Go sources `commonamqp/message.go`
and `iotservice/client.go`) against its natural-language specification.
The Go code is shallowly embedded: pure logic becomes Lean functions, Go
`error` values become an explicit `GoErr` type, Go panics become `Option`
failure (`none`) or a dedicated `panicked` outcome, and the effectful
environment (dial results, token minting, receive outcomes, JSON codec
results) is passed in explicitly as data.
-/

namespace IotHub

/-- Values of Go dynamic (interface) type as they occur on the AMQP wire:
strings, times (modelled as integers) and other values such as ints.
`time.Time` is modelled as `Int`. -/
inductive AMQPValue where
  | str : String → AMQPValue
  | time : Int → AMQPValue
  | int : Int → AMQPValue
deriving DecidableEq

/-- Result of Go `fmt.Sprint` on a dynamic value (used by the decoder's
default annotation branch). -/
def sprint : AMQPValue → String
  | .str s => s
  | .time t => toString t
  | .int n => toString n

/-- Go type assertion `v.(string)`: succeeds only on strings (a failed
assertion panics, modelled as `none`). -/
def asString : AMQPValue → Option String
  | .str s => some s
  | _ => none

/-- Go type assertion `v.(time.Time)`. -/
def asTime : AMQPValue → Option Int
  | .time t => some t
  | _ => none

/-- Go errors as observed by the client: either an AMQP detach error carrying
a remote-error condition and an info map (`amqp.DetachError`), or an ordinary
error identified by its message string. -/
inductive GoErr where
  | detach (cond : String) (info : List (String × AMQPValue))
  | simple (msg : String)
deriving DecidableEq

/-- Go map lookup on a string-keyed info map (`rerr.RemoteError.Info[k]`);
a missing key yields the nil interface value, modelled as `none`. -/
def lookupV : List (String × AMQPValue) → String → Option AMQPValue
  | [], _ => none
  | (k, v) :: rest, key => if k = key then some v else lookupV rest key

/-- Helper for `goIndex`: does `pre` occur at the head of `s`? -/
def startsWithChars : List Char → List Char → Bool
  | [], _ => true
  | _ :: _, [] => false
  | a :: as, b :: bs => a == b && startsWithChars as bs

/-- Helper for `goIndex`: first index at or after `i` where `sub` occurs. -/
def goIndexAux (sub : List Char) : List Char → Nat → Option Nat
  | [], i => if sub.isEmpty then some i else none
  | c :: rest, i =>
    if startsWithChars sub (c :: rest) then some i
    else goIndexAux sub rest (i + 1)

/-- Go `strings.Index(s, sub)`: byte index of the first occurrence of `sub`
in `s`, or `-1` when absent (strings here are ASCII so byte index and
character index coincide). -/
def goIndex (s sub : String) : Int :=
  match goIndexAux sub.toList s.toList 0 with
  | some n => (n : Int)
  | none => -1

/-- Go slice expression `s[i:j]`: defined only when `0 ≤ i ≤ j ≤ len s`,
otherwise the Go program panics (modelled as `none`). -/
def goSlice (s : List Char) (i j : Int) : Option (List Char) :=
  if 0 ≤ i ∧ i ≤ j ∧ j ≤ (s.length : Int) then
    some ((s.take j.toNat).drop i.toNat)
  else
    none

/-- Consumer-group extraction from the redirect address, translated from
`client.go:188`: `group[strings.Index(group, ":5671/")+6 : len(group)-1]`. -/
def extractGroup (address : String) : Option String :=
  let cs := address.toList
  (goSlice cs (goIndex address ":5671/" + 6) ((cs.length : Int) - 1)).map
    fun l => String.mk l

/-- Outcome of the redirect-resolution step of `connectToEventHub`: either an
error returned to the caller (no second dial happens), a Go panic (failed
type assertion or out-of-range slice), or a second dial to `addr` with the
extracted consumer `group`. -/
inductive ResolveOutcome where
  | err (e : GoErr)
  | panicked
  | dial (addr : String) (group : String)
deriving DecidableEq

/-- Does this outcome dial a second connection? -/
def isDial : ResolveOutcome → Bool
  | .dial _ _ => true
  | _ => false

/-- Is this error an `amqp.DetachError` whose remote condition is
`amqp.ErrorLinkRedirect`? (`client.go:181-182`). -/
def isLinkRedirect : GoErr → Bool
  | .detach cond _ => cond == "amqp:link:redirect"
  | _ => false

/-- Redirect resolution, translated from `client.go:175-195` (the part of
`Client.connectToEventHub` following the probe receive). `recvErr` is the
error result of `recv.Receive(ctx)` (`none` when the receive succeeded). -/
def resolveRedirect (recvErr : Option GoErr) : ResolveOutcome :=
  match recvErr with
  | none => .err (.simple "expected redirect error")
  | some e =>
    match e with
    | .simple s => .err (.simple s)
    | .detach cond info =>
      if cond = "amqp:link:redirect" then
        match (lookupV info "address").bind asString with
        | none => .panicked
        | some a =>
          match extractGroup a with
          | none => .panicked
          | some g =>
            match (lookupV info "hostname").bind asString with
            | none => .panicked
            | some h => .dial ("amqps://" ++ h) g
      else .err (.detach cond info)

/-- Application-level message model, translated from `common.Message` as used
by `commonamqp/message.go`. Payload bytes are `List Nat`; `time.Time` fields
are `Int` (with `0` the Go zero time); the `Properties` Go map is an
association list with pairwise-distinct keys (the Go map invariant). -/
structure Message where
  payload : List Nat
  To : String
  messageID : String
  correlationID : String
  userID : String
  expiryTime : Int
  enqueuedTime : Int
  connectionDeviceID : String
  connectionDeviceGenerationID : String
  connectionAuthMethod : String
  messageSource : String
  properties : List (String × String)
deriving DecidableEq

/-- Wire-side `amqp.MessageProperties`: `MessageID` and `CorrelationID` are
dynamically typed (`interface\x7b\x7d`), `UserID` is a byte string (modelled as a
`String`, Go's `[]byte(s)` / `string(b)` conversions being mutually inverse
on it). -/
structure AMQPProperties where
  To : String
  userID : String
  messageID : AMQPValue
  correlationID : AMQPValue
  absoluteExpiryTime : Int
deriving DecidableEq

/-- Wire-side `amqp.Message`: data segments, optional standard properties,
annotations (a map with dynamically typed keys and values) and application
properties (string keys, dynamically typed values). -/
structure AMQPMessage where
  data : List (List Nat)
  properties : Option AMQPProperties
  annotations : List (AMQPValue × AMQPValue)
  applicationProperties : List (String × AMQPValue)
deriving DecidableEq

/-- Go map insertion `m[k] = v` on an association list: overwrite the
existing entry for `k` or append a fresh one. -/
def mapInsert : List (String × String) → String → String → List (String × String)
  | [], k, v => [(k, v)]
  | (k', v') :: rest, k, v =>
    if k' = k then (k, v) :: rest else (k', v') :: mapInsert rest k v

/-- Keys of an association list. -/
def keysOf (l : List (String × String)) : List String := l.map Prod.fst

/-- Message with every field at its Go zero value except the payload, as
built at `message.go:12-15`. -/
def zeroMessage (payload : List Nat) : Message :=
  { payload := payload, To := "", messageID := "", correlationID := "",
    userID := "", expiryTime := 0, enqueuedTime := 0, connectionDeviceID := "",
    connectionDeviceGenerationID := "", connectionAuthMethod := "",
    messageSource := "", properties := [] }

/-- One step of the annotation loop of `FromAMQPMessage`
(`message.go:23-38`). The five reserved keys populate dedicated fields after
a dynamic type assertion; any other key is asserted to be a string and its
value `fmt.Sprint`ed into the generic properties map. `none` models a Go
panic on a failed assertion. -/
def applyAnnot (m : Message) (kv : AMQPValue × AMQPValue) : Option Message :=
  if kv.1 = .str "iothub-enqueuedtime" then
    (asTime kv.2).map fun t => { m with enqueuedTime := t }
  else if kv.1 = .str "iothub-connection-device-id" then
    (asString kv.2).map fun s => { m with connectionDeviceID := s }
  else if kv.1 = .str "iothub-connection-auth-generation-id" then
    (asString kv.2).map fun s => { m with connectionDeviceGenerationID := s }
  else if kv.1 = .str "iothub-connection-auth-method" then
    (asString kv.2).map fun s => { m with connectionAuthMethod := s }
  else if kv.1 = .str "iothub-message-source" then
    (asString kv.2).map fun s => { m with messageSource := s }
  else
    match kv.1 with
    | .str k => some { m with properties := mapInsert m.properties k (sprint kv.2) }
    | _ => none

/-- One step of the application-properties loop of `FromAMQPMessage`
(`message.go:39-41`): `m.Properties[k] = v.(string)`. -/
def applyAppProp (m : Message) (kv : String × AMQPValue) : Option Message :=
  (asString kv.2).map fun s => { m with properties := mapInsert m.properties kv.1 s }

/-- Standard-properties step of `FromAMQPMessage` (`message.go:16-22`):
skipped when the properties block is nil, otherwise `UserID`, `MessageID`
(string-asserted), `CorrelationID` (string-asserted), `To` and the expiry
time are copied onto the message. -/
def applyProperties (base : Message) : Option AMQPProperties → Option Message
  | none => some base
  | some p => do
    let mid ← asString p.messageID
    let cid ← asString p.correlationID
    some { base with
            userID := p.userID
            messageID := mid
            correlationID := cid
            To := p.To
            expiryTime := p.absoluteExpiryTime }

/-- Wire-to-application decoder, translated from `FromAMQPMessage`
(`message.go:11-43`). `none` models a Go panic: `msg.Data[0]` on an empty
data array, or a failed dynamic type assertion on `MessageID`,
`CorrelationID`, an annotation key or value, or an application-property
value. The Go function's declared `error` result is never non-nil. -/
def FromAMQPMessage (msg : AMQPMessage) : Option Message := do
  let payload ← msg.data.head?
  let withProps ← applyProperties (zeroMessage payload) msg.properties
  let withAnn ← msg.annotations.foldlM applyAnnot withProps
  msg.applicationProperties.foldlM applyAppProp withAnn

/-- Application-to-wire encoder, translated from `ToAMQPMessage`
(`message.go:45-61`): the payload is the single data segment, the scalar
fields map onto the standard properties, and every generic property is
copied verbatim into the application properties. No annotations are set. -/
def ToAMQPMessage (m : Message) : AMQPMessage :=
  { data := [m.payload],
    properties := some
      { To := m.To, userID := m.userID, messageID := .str m.messageID,
        correlationID := .str m.correlationID,
        absoluteExpiryTime := m.expiryTime },
    annotations := [],
    applicationProperties := m.properties.map fun kv => (kv.1, .str kv.2) }

/-- Inserting a fresh key appends the binding at the end of the map. -/
theorem mapInsert_not_mem (P : List (String × String)) (k v : String)
    (h : ¬ k ∈ keysOf P) : mapInsert P k v = P ++ [(k, v)] := by
  induction P with
  | nil => rfl
  | cons hd tl ih =>
    simp only [keysOf, List.map_cons, List.mem_cons] at h
    push_neg at h
    simp only [mapInsert, List.cons_append]
    rw [if_neg (fun he => h.1 he.symm)]
    rw [ih (by simpa [keysOf] using h.2)]

/-- Folding the application-properties loop over string-valued entries with
keys fresh for the accumulated message appends them, in order, to its
properties map. -/
theorem foldlM_applyAppProp_str (l : List (String × String)) (m : Message)
    (hdis : ∀ k, k ∈ keysOf l → ¬ k ∈ keysOf m.properties)
    (hnd : (keysOf l).Nodup) :
    (l.map fun kv => (kv.1, AMQPValue.str kv.2)).foldlM applyAppProp m =
      some { m with properties := m.properties ++ l } := by
  induction l generalizing m with
  | nil => simp [List.foldlM]
  | cons hd tl ih =>
    obtain ⟨k, v⟩ := hd
    simp only [List.map_cons, List.foldlM]
    have hk : ¬ k ∈ keysOf m.properties := by
      apply hdis k; simp [keysOf]
    have hstep : applyAppProp m (k, AMQPValue.str v) =
        some { m with properties := m.properties ++ [(k, v)] } := by
      simp [applyAppProp, asString, mapInsert_not_mem m.properties k v hk]
    rw [hstep]
    simp only [keysOf, List.map_cons, List.nodup_cons] at hnd
    have ihres := ih { m with properties := m.properties ++ [(k, v)] }
      (by
        intro k' hk' hmem
        simp only [keysOf, List.map_append] at hmem
        rcases List.mem_append.mp hmem with hmem | hmem
        · refine hdis k' ?_ hmem
          simp only [keysOf, List.map_cons, List.mem_cons]
          exact Or.inr (by simpa [keysOf] using hk')
        · simp only [List.map_cons, List.map_nil, List.mem_singleton] at hmem
          subst hmem
          exact hnd.1 (by simpa [keysOf] using hk'))
      hnd.2
    simpa [List.append_assoc] using ihres

/-- Round trip through the codec: decoding the encoding of `m` succeeds and
reconstructs `m` except for the five annotation-derived fields, which come
back at their zero values because the encoder sets no annotations. -/
theorem decode_encode (m : Message) (h : (keysOf m.properties).Nodup) :
    FromAMQPMessage (ToAMQPMessage m) = some
      { payload := m.payload, To := m.To, messageID := m.messageID,
        correlationID := m.correlationID, userID := m.userID,
        expiryTime := m.expiryTime, enqueuedTime := 0,
        connectionDeviceID := "", connectionDeviceGenerationID := "",
        connectionAuthMethod := "", messageSource := "",
        properties := m.properties } := by
  have hfold := foldlM_applyAppProp_str m.properties
    { payload := m.payload, To := m.To, messageID := m.messageID,
      correlationID := m.correlationID, userID := m.userID,
      expiryTime := m.expiryTime, enqueuedTime := 0,
      connectionDeviceID := "", connectionDeviceGenerationID := "",
      connectionAuthMethod := "", messageSource := "",
      properties := [] }
    (by intro k _ hmem; simp [keysOf] at hmem) h
  simpa [FromAMQPMessage, ToAMQPMessage, zeroMessage, asString,
    List.foldlM, Option.bind] using hfold

/-- Handle on an established `eventhub.Client` transport. The only behaviour
of the external transport observed by the modelled client code is the result
of its `Close` method, carried here as data. -/
structure EHConn where
  closeErr : Option GoErr
deriving DecidableEq

/-- Client state relevant to the modelled operations, from the `Client`
struct (`client.go:101-109`): the primary connection handle `conn` and the
`done` cancellation channel (`doneClosed` records whether `close(done)` has
fired). The configuration fields (credentials, logger, debug flag, REST
client) are never mutated by the modelled operations and are left to the
operation environments. -/
structure Client where
  conn : Option EHConn
  doneClosed : Bool
deriving DecidableEq

/-- Result of `Client.Close`: the successor state, the returned error, and
whether the underlying transport's close was invoked during the call. -/
structure CloseResult where
  st : Client
  err : Option GoErr
  closedTransport : Bool
deriving DecidableEq

/-- Translated from `Client.Close` (`client.go:635-648`): if `done` is
already closed, return nil immediately; otherwise close `done`; then, if no
connection handle is set, return nil, else return the transport's close
result. The connection handle itself is never written. -/
def Client.Close (c : Client) : CloseResult :=
  if c.doneClosed then
    { st := c, err := none, closedTransport := false }
  else
    match c.conn with
    | none => { st := { c with doneClosed := true }, err := none,
                closedTransport := false }
    | some conn => { st := { c with doneClosed := true }, err := conn.closeErr,
                     closedTransport := true }

/-- Translated from `Client.isConnected` (`client.go:198-202`): the liveness
check is `c.conn != nil` under the mutex. -/
def Client.isConnected (c : Client) : Bool :=
  c.conn.isSome

/-- Environment of one `Connect` call: the outcome of `eventhub.Dial`, of
minting the SAS token (`c.creds.SAS`), and of the initial token submission
`eh.PutTokenContinuously` (`none` meaning success). -/
structure ConnectEnv where
  dial : Except GoErr EHConn
  sas : Except GoErr String
  putToken : Option GoErr

/-- Result of `Client.Connect`: successor state, returned error, and whether
the dialed transport was closed again before returning. -/
structure ConnectResult where
  st : Client
  err : Option GoErr
  dialedClosed : Bool
deriving DecidableEq

/-- Translated from `Client.Connect` (`client.go:112-138`): dial, then mint a
token, then submit it; the deferred closure closes the dialed transport
whenever the function returns a non-nil error after the dial succeeded, and
the connection handle is assigned only on the all-success path. -/
def Client.Connect (c : Client) (env : ConnectEnv) : ConnectResult :=
  match env.dial with
  | .error e => { st := c, err := some e, dialedClosed := false }
  | .ok eh =>
    match env.sas with
    | .error e => { st := c, err := some e, dialedClosed := true }
    | .ok _sas =>
      match env.putToken with
      | some e => { st := c, err := some e, dialedClosed := true }
      | none => { st := { c with conn := some eh }, err := none,
                  dialedClosed := false }

/-- Per-send option, from the `SendOption` function type
(`client.go:231`). -/
def SendOption : Type := Message → Except GoErr Message

/-- Outcome of `Client.SendEvent` up to the network phase: a validation
error, an option-application error, the not-connected sentinel, or entry
into the network phase (open a sender link and send `m`). -/
inductive SendResult where
  | validationErr (msg : String)
  | optErr (e : GoErr)
  | errNotConnected
  | network (m : Message)
deriving DecidableEq

/-- Is this outcome one of the two argument-validation errors? -/
def SendResult.isValidationErr : SendResult → Bool
  | .validationErr _ => true
  | _ => false

/-- Translated from `Client.SendEvent` (`client.go:318-354`): validate the
device id and payload (a nil payload is `none`), check connectedness, build
the devicebound message, apply the options, and enter the network phase.
The network phase itself (opening the sender link and sending) involves no
further client logic and is represented by the `network` outcome carrying
the exact message handed to `commonamqp.ToAMQPMessage`. -/
def Client.SendEvent (c : Client) (deviceID : String)
    (payload : Option (List Nat)) (opts : List SendOption) : SendResult :=
  if deviceID = "" then .validationErr "device id is empty"
  else if payload = none then .validationErr "payload is nil"
  else if ¬ c.isConnected then .errNotConnected
  else
    let base : Message :=
      { payload := payload.getD [],
        To := "/devices/" ++ deviceID ++ "/messages/devicebound",
        messageID := "", correlationID := "", userID := "", expiryTime := 0,
        enqueuedTime := 0, connectionDeviceID := "",
        connectionDeviceGenerationID := "", connectionAuthMethod := "",
        messageSource := "", properties := [] }
    match opts.foldlM (fun m o => o m) base with
    | .error e => .optErr e
    | .ok m => .network m

/-- Feedback record, from the `Feedback` struct (`client.go:390-397`), with
`time.Time` as `Int`. -/
structure Feedback where
  originalMessageID : String
  description : String
  deviceGenerationID : String
  deviceID : String
  enqueuedTimeUTC : Int
  statusCode : String
deriving DecidableEq

/-- Protocol message delivered to the feedback receive loop: its data
segments. -/
structure AMQPRecvMsg where
  data : List (List Nat)
deriving DecidableEq

/-- Observable events of the feedback receive loop, in program order:
acknowledging the protocol message (`msg.Accept()`), spawning the callback
goroutine for one record (`go fn(f)`), returning an error to the caller, or
a Go panic. -/
inductive FbEvent where
  | accept
  | dispatch (f : Feedback)
  | exit (e : GoErr)
  | panicked
deriving DecidableEq

/-- Is this event a callback dispatch? -/
def FbEvent.isDispatch : FbEvent → Bool
  | .dispatch _ => true
  | _ => false

/-- One iteration body of the `SubscribeFeedback` loop after a successful
receive (`client.go:377-386`): acknowledge first, then index `msg.Data[0]`
(panicking on an empty data array), decode it as a feedback array (`decode`
models `json.Unmarshal`; a decode error exits the loop), and spawn one
callback dispatch per array element, in order. Returns the emitted events
and whether the loop continues. -/
def feedbackIter (decode : List Nat → Except GoErr (List Feedback))
    (msg : AMQPRecvMsg) : List FbEvent × Bool :=
  match msg.data.head? with
  | none => ([.accept, .panicked], false)
  | some b =>
    match decode b with
    | .error e => ([.accept, .exit e], false)
    | .ok v => (.accept :: v.map FbEvent.dispatch, true)

/-- Event trace of the `SubscribeFeedback` receive loop (`client.go:372-387`)
over a finite schedule of receive outcomes; an exhausted schedule models a
loop still blocked in `recv.Receive`. -/
def subscribeFeedbackTrace (decode : List Nat → Except GoErr (List Feedback)) :
    List (Except GoErr AMQPRecvMsg) → List FbEvent
  | [] => []
  | .error e :: _ => [.exit e]
  | .ok msg :: rest =>
    match feedbackIter decode msg with
    | (evs, true) => evs ++ subscribeFeedbackTrace decode rest
    | (evs, false) => evs

/-- Direct-method request body, from the `call` struct
(`client.go:399-404`). Payload values are opaque to the client code
(`interface\x7b\x7d`) and modelled as strings. -/
structure CallReq where
  methodName : String
  connectTimeout : Int
  responseTimeout : Int
  payload : List (String × String)
deriving DecidableEq

/-- Parsed direct-method response envelope, from the anonymous struct at
`client.go:462-465`: a status and a result payload. -/
structure CallResp where
  status : Int
  payload : List (String × String)
deriving DecidableEq

/-- Environment of one `Call` invocation: the result of the REST round trip
`c.request` (raw body bytes) and of `json.Unmarshal` on that body. -/
structure CallEnv where
  request : Except GoErr (List Nat)
  unmarshal : List Nat → Except GoErr CallResp

/-- Translated from `Client.Call` (`client.go:426-467`): validate the three
required inputs, build the request from the options, issue the REST request,
parse the response envelope, and return only its payload — the parsed status
is discarded. (Under the reference Go compiler the `json.Unmarshal` call in
the return statement is evaluated before `ir.Payload` is read, so the
returned map is the parsed payload.) -/
def Client.Call (deviceID methodName : String)
    (payload : List (String × String))
    (opts : List (CallReq → Except GoErr CallReq)) (env : CallEnv) :
    Except GoErr (List (String × String)) :=
  if deviceID = "" then .error (.simple "deviceID is empty")
  else if methodName = "" then .error (.simple "methodName is empty")
  else if payload.length = 0 then .error (.simple "payload is empty")
  else
    let base : CallReq :=
      { methodName := methodName, connectTimeout := 0, responseTimeout := 0,
        payload := payload }
    match opts.foldlM (fun v o => o v) base with
    | .error e => .error e
    | .ok _v =>
      match env.request with
      | .error e => .error e
      | .ok b =>
        match env.unmarshal b with
        | .error e => .error e
        | .ok ir => .ok ir.payload

/-- Is this annotation entry handled without a panic by the decoder's
annotation loop? The five reserved keys need a value of the asserted type;
any other entry needs a string key. -/
def wellTypedAnnot (kv : AMQPValue × AMQPValue) : Bool :=
  if kv.1 = .str "iothub-enqueuedtime" then (asTime kv.2).isSome
  else if kv.1 = .str "iothub-connection-device-id" then (asString kv.2).isSome
  else if kv.1 = .str "iothub-connection-auth-generation-id" then (asString kv.2).isSome
  else if kv.1 = .str "iothub-connection-auth-method" then (asString kv.2).isSome
  else if kv.1 = .str "iothub-message-source" then (asString kv.2).isSome
  else
    match kv.1 with
    | .str _ => true
    | _ => false

/-- Domain on which the decoder runs to completion: at least one data
segment, string-typed `MessageID` and `CorrelationID` when the properties
block is present, well-typed annotations, and string-typed
application-property values. -/
def inDecodeDomain (msg : AMQPMessage) : Bool :=
  !msg.data.isEmpty &&
  (match msg.properties with
   | none => true
   | some p => (asString p.messageID).isSome && (asString p.correlationID).isSome) &&
  msg.annotations.all wellTypedAnnot &&
  msg.applicationProperties.all fun kv => (asString kv.2).isSome

/-- Wire message with an empty data array: `msg.Data[0]` at `message.go:13`
is out of range. -/
def msgNoData : AMQPMessage :=
  { data := [], properties := none, annotations := [],
    applicationProperties := [] }

/-- Wire message whose properties block carries a non-string `MessageID`:
the assertion `msg.Properties.MessageID.(string)` at `message.go:18`
fails. -/
def msgBadMessageID : AMQPMessage :=
  { data := [[1]],
    properties := some
      { To := "", userID := "", messageID := .int 5,
        correlationID := .str "c", absoluteExpiryTime := 0 },
    annotations := [], applicationProperties := [] }

/-- Folding a monadic step over `Option` succeeds when every step succeeds
on every accumulator. -/
theorem foldlM_isSome {α β : Type} (f : β → α → Option β) (l : List α)
    (h : ∀ x ∈ l, ∀ acc : β, (f acc x).isSome) :
    ∀ acc : β, (l.foldlM f acc).isSome := by
  induction l with
  | nil => intro acc; simp [List.foldlM]
  | cons hd tl ih =>
    intro acc
    simp only [List.foldlM]
    obtain ⟨b, hb⟩ := Option.isSome_iff_exists.mp
      (h hd (by simp) acc)
    rw [hb]
    exact ih (fun x hx acc' => h x (by simp [hx]) acc') b

/-- Well-typed annotation entries never make the annotation loop panic. -/
theorem applyAnnot_isSome (kv : AMQPValue × AMQPValue)
    (h : wellTypedAnnot kv = true) (m : Message) :
    (applyAnnot m kv).isSome = true := by
  unfold wellTypedAnnot at h
  unfold applyAnnot
  split_ifs at h ⊢ <;>
    first
    | (obtain ⟨x, hx⟩ := Option.isSome_iff_exists.mp h
       rw [hx]
       rfl)
    | (rcases hk : kv.1 with k | t | n <;> simp_all)

/-- String-valued application properties never make the property loop
panic. -/
theorem applyAppProp_isSome (kv : String × AMQPValue)
    (h : (asString kv.2).isSome = true) (m : Message) :
    (applyAppProp m kv).isSome = true := by
  unfold applyAppProp
  obtain ⟨x, hx⟩ := Option.isSome_iff_exists.mp h
  rw [hx]
  rfl

/-- The standard-properties step succeeds when `MessageID` and
`CorrelationID` are strings (or the block is absent). -/
theorem applyProperties_isSome (base : Message) (props : Option AMQPProperties)
    (h : match props with
         | none => True
         | some p => (asString p.messageID).isSome = true ∧
                     (asString p.correlationID).isSome = true) :
    (applyProperties base props).isSome = true := by
  cases props with
  | none => rfl
  | some p =>
    obtain ⟨hm, hc⟩ := h
    obtain ⟨mid, hmid⟩ := Option.isSome_iff_exists.mp hm
    obtain ⟨cid, hcid⟩ := Option.isSome_iff_exists.mp hc
    simp [applyProperties, hmid, hcid]

/-- On its decode domain the decoder runs to completion. -/
theorem fromAMQP_isSome (msg : AMQPMessage) (h : inDecodeDomain msg = true) :
    (FromAMQPMessage msg).isSome = true := by
  unfold inDecodeDomain at h
  simp only [Bool.and_eq_true] at h
  obtain ⟨⟨⟨h1, h2⟩, h3⟩, h4⟩ := h
  rcases hd : msg.data with _ | ⟨d, t⟩
  · rw [hd] at h1; simp at h1
  · have hhd : msg.data.head? = some d := by rw [hd]; rfl
    have hw1 : (applyProperties (zeroMessage d) msg.properties).isSome = true := by
      apply applyProperties_isSome
      cases hp : msg.properties with
      | none => trivial
      | some p =>
        rw [hp] at h2
        simp only [Bool.and_eq_true] at h2
        exact h2
    obtain ⟨w1, hw1'⟩ := Option.isSome_iff_exists.mp hw1
    have hw2 : (msg.annotations.foldlM applyAnnot w1).isSome = true := by
      apply foldlM_isSome
      intro kv hkv acc
      apply applyAnnot_isSome
      exact (List.all_eq_true.mp h3) kv hkv
    obtain ⟨w2, hw2'⟩ := Option.isSome_iff_exists.mp hw2
    have hw3 : (msg.applicationProperties.foldlM applyAppProp w2).isSome = true := by
      apply foldlM_isSome
      intro kv hkv acc
      apply applyAppProp_isSome
      exact (List.all_eq_true.mp h4) kv hkv
    unfold FromAMQPMessage
    rw [hhd]
    simp only [Option.bind_eq_bind, Option.some_bind]
    rw [hw1']
    simp only [Option.some_bind]
    rw [hw2']
    simp only [Option.some_bind]
    exact hw3

/-- Liveness of the transport-close result recorded on the connection
handle: the transport's own close reports no error (or there is no
handle). -/
def connCloseOk (c : Client) : Bool :=
  match c.conn with
  | none => true
  | some conn => conn.closeErr.isNone

/-- Dispatch events projected from a record list count one per element. -/
theorem countP_dispatch_map (records : List Feedback) :
    (records.map FbEvent.dispatch).countP FbEvent.isDispatch = records.length := by
  induction records with
  | nil => rfl
  | cons hd tl ih => simp [List.countP_cons, FbEvent.isDispatch, ih]

/-- C1: decoding the encoding of any message whose properties map satisfies
the Go map invariant (pairwise-distinct keys) succeeds and preserves the
payload bytes, message id, correlation id, user id, expiry time, and the
whole set of property key/value pairs. -/
theorem C1_codec_round_trip (m : Message) (h : (keysOf m.properties).Nodup) :
    (FromAMQPMessage (ToAMQPMessage m)).map Message.payload = some m.payload ∧
    (FromAMQPMessage (ToAMQPMessage m)).map Message.messageID = some m.messageID ∧
    (FromAMQPMessage (ToAMQPMessage m)).map Message.correlationID = some m.correlationID ∧
    (FromAMQPMessage (ToAMQPMessage m)).map Message.userID = some m.userID ∧
    (FromAMQPMessage (ToAMQPMessage m)).map Message.expiryTime = some m.expiryTime ∧
    (FromAMQPMessage (ToAMQPMessage m)).map Message.properties = some m.properties := by
  rw [decode_encode m h]
  exact ⟨rfl, rfl, rfl, rfl, rfl, rfl⟩

/-- Concrete fully populated message for the round-trip witness. -/
def mW : Message :=
  { payload := [1, 2], To := "t", messageID := "mid", correlationID := "cid",
    userID := "u", expiryTime := 5, enqueuedTime := 7,
    connectionDeviceID := "cd", connectionDeviceGenerationID := "cg",
    connectionAuthMethod := "ca", messageSource := "ms",
    properties := [("a", "1"), ("b", "2")] }

/-- Witness for C1 at a concrete message with two properties. -/
theorem C1_codec_round_trip_witness :
    (keysOf mW.properties).Nodup ∧
    ((FromAMQPMessage (ToAMQPMessage mW)).map Message.payload = some mW.payload ∧
     (FromAMQPMessage (ToAMQPMessage mW)).map Message.messageID = some mW.messageID ∧
     (FromAMQPMessage (ToAMQPMessage mW)).map Message.correlationID = some mW.correlationID ∧
     (FromAMQPMessage (ToAMQPMessage mW)).map Message.userID = some mW.userID ∧
     (FromAMQPMessage (ToAMQPMessage mW)).map Message.expiryTime = some mW.expiryTime ∧
     (FromAMQPMessage (ToAMQPMessage mW)).map Message.properties = some mW.properties) :=
  ⟨by decide, C1_codec_round_trip mW (by decide)⟩

/-- Connected, not-yet-closed client used to refute C2. -/
def clientC2 : Client := { conn := some { closeErr := none }, doneClosed := false }

/-- C2 counterexample: `Close` does not clear the connection handle, so
after closing a connected client the liveness check still reports connected,
and `SendEvent` with valid arguments does not fail with the not-connected
sentinel. -/
theorem C2_counterexample :
    Client.isConnected (Client.Close clientC2).st = true ∧
    (Client.Close clientC2).st.conn = some { closeErr := none } ∧
    Client.SendEvent (Client.Close clientC2).st "d" (some [1]) [] ≠
      SendResult.errNotConnected := by decide

/-- C2 (amended): `Close` fires the cancellation signal and closes the
underlying transport, but it never writes the connection handle; after
`Close` the handle and the result of the liveness check are unchanged, so a
subsequent `SendEvent`/`SubscribeFeedback` is not stopped by the
not-connected check (it fails only later, at the closed transport). -/
theorem C2_close_keeps_handle (c : Client) :
    (Client.Close c).st.conn = c.conn ∧
    Client.isConnected (Client.Close c).st = Client.isConnected c := by
  by_cases hd : c.doneClosed <;> rcases hc : c.conn with _ | conn <;>
    simp [Client.Close, Client.isConnected, hd, hc]

/-- C3: a link-redirect error whose info carries address
`"amqps://host:5671/mygroup/"` and hostname `"redirected.example.com"`
resolves to the consumer group `"mygroup"` and a second dial to
`"amqps://redirected.example.com"`. -/
theorem C3_redirect_extraction :
    resolveRedirect (some (.detach "amqp:link:redirect"
      [("address", .str "amqps://host:5671/mygroup/"),
       ("hostname", .str "redirected.example.com")])) =
    .dial "amqps://redirected.example.com" "mygroup" := by decide

/-- C4: a probe receive error that is not a link-redirect detach error is
returned exactly as received and no second connection is dialed; a probe
receive that succeeds is itself a resolver failure. -/
theorem C4_non_redirect_propagation (e : GoErr)
    (h : isLinkRedirect e = false) :
    resolveRedirect (some e) = .err e ∧
    isDial (resolveRedirect (some e)) = false ∧
    resolveRedirect none = .err (.simple "expected redirect error") ∧
    isDial (resolveRedirect none) = false := by
  have h1 : resolveRedirect (some e) = .err e := by
    cases e with
    | simple s => rfl
    | detach cond info =>
      have hc : ¬ cond = "amqp:link:redirect" := by
        simpa [isLinkRedirect] using h
      simp [resolveRedirect, hc]
  exact ⟨h1, by rw [h1]; rfl, rfl, rfl⟩

/-- Witness for C4 at a detach error with a non-redirect condition. -/
theorem C4_non_redirect_propagation_witness :
    isLinkRedirect (GoErr.detach "amqp:internal-error" []) = false ∧
    (resolveRedirect (some (GoErr.detach "amqp:internal-error" [])) =
       .err (GoErr.detach "amqp:internal-error" []) ∧
     isDial (resolveRedirect (some (GoErr.detach "amqp:internal-error" []))) = false ∧
     resolveRedirect none = .err (.simple "expected redirect error") ∧
     isDial (resolveRedirect none) = false) :=
  ⟨by decide, C4_non_redirect_propagation _ (by decide)⟩

/-- C5: on a successful invocation (valid inputs, options applied, REST
round trip and envelope parse both succeed) `Call` returns exactly the
payload field of the parsed envelope, whatever the parsed status was. -/
theorem C5_call_returns_payload (deviceID methodName : String)
    (payload : List (String × String))
    (opts : List (CallReq → Except GoErr CallReq)) (env : CallEnv)
    (v : CallReq) (b : List Nat) (ir : CallResp)
    (hdev : ¬ deviceID = "") (hmeth : ¬ methodName = "")
    (hpay : ¬ payload.length = 0)
    (hopts : opts.foldlM (fun v o => o v)
      { methodName := methodName, connectTimeout := 0, responseTimeout := 0,
        payload := payload } = .ok v)
    (hreq : env.request = .ok b) (hun : env.unmarshal b = .ok ir) :
    Client.Call deviceID methodName payload opts env = .ok ir.payload := by
  simp [Client.Call, hdev, hmeth, hpay, hopts, hreq, hun]

/-- Concrete environment for the C5 witness: the REST body is `[7]` and
parses to an envelope with status 200 and payload `[("ok", "1")]`. -/
def envC5 : CallEnv :=
  { request := .ok [7],
    unmarshal := fun b =>
      if b = [7] then .ok { status := 200, payload := [("ok", "1")] }
      else .error (.simple "unmarshal") }

/-- Witness for C5 at a concrete successful invocation. -/
theorem C5_call_returns_payload_witness :
    Client.Call "dev" "reboot" [("k", "v")] [] envC5 = .ok [("ok", "1")] :=
  C5_call_returns_payload "dev" "reboot" [("k", "v")] [] envC5
    { methodName := "reboot", connectTimeout := 0, responseTimeout := 0,
      payload := [("k", "v")] }
    [7] { status := 200, payload := [("ok", "1")] }
    (by decide) (by decide) (by decide) rfl rfl rfl

/-- C6: once the dial has succeeded, `Connect` either succeeds at every
later step — and only then stores the dialed transport in the connection
field — or returns the failing step's error with the dialed transport closed
and the connection field untouched. -/
theorem C6_connect_failure_cleanup (c : Client) (env : ConnectEnv)
    (eh : EHConn) (hdial : env.dial = .ok eh) :
    ((Client.Connect c env).err = none →
      (Client.Connect c env).st.conn = some eh ∧
      (Client.Connect c env).dialedClosed = false) ∧
    ((Client.Connect c env).err ≠ none →
      (Client.Connect c env).dialedClosed = true ∧
      (Client.Connect c env).st.conn = c.conn) := by
  unfold Client.Connect
  rw [hdial]
  cases hs : env.sas with
  | error e => simp
  | ok s => cases hp : env.putToken <;> simp

/-- Connect environment for the C6 witness: dial and token minting succeed,
the initial token submission is rejected. -/
def envC6 : ConnectEnv :=
  { dial := .ok { closeErr := none }, sas := .ok "token",
    putToken := some (.simple "auth rejected") }

/-- Witness for C6 at a client whose initial token submission fails. -/
theorem C6_connect_failure_cleanup_witness :
    ((Client.Connect { conn := none, doneClosed := false } envC6).err = none →
      (Client.Connect { conn := none, doneClosed := false } envC6).st.conn =
        some { closeErr := none } ∧
      (Client.Connect { conn := none, doneClosed := false } envC6).dialedClosed = false) ∧
    ((Client.Connect { conn := none, doneClosed := false } envC6).err ≠ none →
      (Client.Connect { conn := none, doneClosed := false } envC6).dialedClosed = true ∧
      (Client.Connect { conn := none, doneClosed := false } envC6).st.conn =
        ({ conn := none, doneClosed := false } : Client).conn) :=
  C6_connect_failure_cleanup { conn := none, doneClosed := false } envC6
    { closeErr := none } rfl

/-- C7: with an empty device id or a nil payload, `SendEvent` returns a
validation error whose value is independent of the client state and of the
options — the connection is never consulted and the network phase is never
reached. -/
theorem C7_send_validation (c c' : Client) (deviceID : String)
    (payload : Option (List Nat)) (opts opts' : List SendOption)
    (h : deviceID = "" ∨ payload = none) :
    Client.SendEvent c deviceID payload opts =
      Client.SendEvent c' deviceID payload opts' ∧
    (Client.SendEvent c deviceID payload opts).isValidationErr = true := by
  by_cases hd : deviceID = ""
  · simp [Client.SendEvent, hd, SendResult.isValidationErr]
  · rcases h with h | h
    · exact absurd h hd
    · subst h
      simp [Client.SendEvent, hd, SendResult.isValidationErr]

/-- Witness for C7: empty device id against two different client states and
option lists. -/
theorem C7_send_validation_witness :
    ("" = "" ∨ (some [1] : Option (List Nat)) = none) ∧
    (Client.SendEvent { conn := none, doneClosed := false } "" (some [1]) [] =
       Client.SendEvent { conn := some { closeErr := none }, doneClosed := true }
         "" (some [1]) [] ∧
     (Client.SendEvent { conn := none, doneClosed := false } ""
        (some [1]) []).isValidationErr = true) :=
  ⟨Or.inl rfl,
   C7_send_validation { conn := none, doneClosed := false }
     { conn := some { closeErr := none }, doneClosed := true }
     "" (some [1]) [] [] (Or.inl rfl)⟩

/-- C8: a received feedback message whose body decodes to `n` records is
acknowledged first, and exactly one callback dispatch is spawned per record
— the iteration trace is the acknowledgment followed by one dispatch per
array element, `n` dispatches in total. -/
theorem C8_feedback_ack_then_dispatch
    (decode : List Nat → Except GoErr (List Feedback)) (msg : AMQPRecvMsg)
    (b : List Nat) (records : List Feedback)
    (hb : msg.data.head? = some b) (hdec : decode b = .ok records) :
    feedbackIter decode msg =
      (FbEvent.accept :: records.map FbEvent.dispatch, true) ∧
    (feedbackIter decode msg).1.head? = some FbEvent.accept ∧
    (feedbackIter decode msg).1.countP FbEvent.isDispatch = records.length := by
  have h1 : feedbackIter decode msg =
      (FbEvent.accept :: records.map FbEvent.dispatch, true) := by
    simp [feedbackIter, hb, hdec]
  refine ⟨h1, by rw [h1]; rfl, ?_⟩
  rw [h1]
  simp [List.countP_cons, FbEvent.isDispatch, countP_dispatch_map]

/-- Concrete feedback records for the C8 witness. -/
def fbA : Feedback :=
  { originalMessageID := "m1", description := "Success",
    deviceGenerationID := "g1", deviceID := "d1", enqueuedTimeUTC := 0,
    statusCode := "0" }

/-- Second concrete feedback record for the C8 witness. -/
def fbB : Feedback :=
  { originalMessageID := "m2", description := "Expired",
    deviceGenerationID := "g1", deviceID := "d2", enqueuedTimeUTC := 1,
    statusCode := "1" }

/-- Concrete decoder for the C8 witness: the body `[1]` decodes to the
two-record batch. -/
def decodeC8 : List Nat → Except GoErr (List Feedback) := fun b =>
  if b = [1] then .ok [fbA, fbB] else .error (.simple "unmarshal")

/-- Concrete received protocol message for the C8 witness. -/
def msgC8 : AMQPRecvMsg := { data := [[1]] }

/-- Witness for C8 at a two-record batch. -/
theorem C8_feedback_ack_then_dispatch_witness :
    feedbackIter decodeC8 msgC8 =
      (FbEvent.accept :: [fbA, fbB].map FbEvent.dispatch, true) ∧
    (feedbackIter decodeC8 msgC8).1.head? = some FbEvent.accept ∧
    (feedbackIter decodeC8 msgC8).1.countP FbEvent.isDispatch =
      [fbA, fbB].length :=
  C8_feedback_ack_then_dispatch decodeC8 msgC8 [1] [fbA, fbB] rfl rfl

/-- C9: when the transport's close reports no error, closing a client twice
returns no error on either call, the second call does not touch the
transport (the transport is closed at most once), and the second call
changes nothing. -/
theorem C9_close_idempotent (c : Client) (h : connCloseOk c = true) :
    (Client.Close c).err = none ∧
    (Client.Close (Client.Close c).st).err = none ∧
    (Client.Close (Client.Close c).st).closedTransport = false ∧
    (Client.Close (Client.Close c).st).st = (Client.Close c).st := by
  by_cases hd : c.doneClosed
  · rcases hc : c.conn with _ | conn <;> simp [Client.Close, hd, hc]
  · rcases hc : c.conn with _ | conn
    · simp [Client.Close, hd, hc]
    · have he : conn.closeErr = none := by
        simpa [connCloseOk, hc, Option.isNone_iff_eq_none] using h
      simp [Client.Close, hd, hc, he]

/-- Witness for C9 at a connected client whose transport close succeeds. -/
theorem C9_close_idempotent_witness :
    connCloseOk clientC2 = true ∧
    ((Client.Close clientC2).err = none ∧
     (Client.Close (Client.Close clientC2).st).err = none ∧
     (Client.Close (Client.Close clientC2).st).closedTransport = false ∧
     (Client.Close (Client.Close clientC2).st).st = (Client.Close clientC2).st) :=
  ⟨by decide, C9_close_idempotent clientC2 (by decide)⟩

/-- C10: the decoder runs to completion on every wire message in its decode
domain (data nonempty, string `MessageID`/`CorrelationID`, well-typed
annotations and application properties); outside it the panic branch is
reachable — an empty data array and a non-string `MessageID` both make it
abort instead of returning an error. -/
theorem C10_decode_domain (msg : AMQPMessage)
    (h : inDecodeDomain msg = true) :
    (FromAMQPMessage msg).isSome = true ∧
    FromAMQPMessage msgNoData = none ∧
    FromAMQPMessage msgBadMessageID = none :=
  ⟨fromAMQP_isSome msg h, by decide, by decide⟩

/-- Concrete in-domain wire message for the C10 witness: one data segment,
string ids, one reserved and one free annotation, one application
property. -/
def msgC10 : AMQPMessage :=
  { data := [[1, 2]],
    properties := some
      { To := "t", userID := "u", messageID := .str "m",
        correlationID := .str "c", absoluteExpiryTime := 3 },
    annotations := [(.str "iothub-enqueuedtime", .time 9), (.str "x", .int 4)],
    applicationProperties := [("p", .str "q")] }

/-- Witness for C10 at a concrete in-domain message. -/
theorem C10_decode_domain_witness :
    inDecodeDomain msgC10 = true ∧
    ((FromAMQPMessage msgC10).isSome = true ∧
     FromAMQPMessage msgNoData = none ∧
     FromAMQPMessage msgBadMessageID = none) :=
  ⟨by decide, C10_decode_domain msgC10 (by decide)⟩

end IotHub
